import Mathlib

/-!
Shallow embedding of the artifact mediation core of the task-queue service
(`src/artifacts.js`): the `createArtifact` endpoint, the shared
`replyWithArtifact` helper, and the latest-run endpoints, together with the
data model they operate on.  Machine timestamps are modelled as `Int`
milliseconds since the epoch (JS `Date.getTime()`); the artifact store is a
list of records keyed by `(taskId, runId, name)`.
-/

deriving instance DecidableEq for Except

/-- A JS-style details object: a bag of optional string fields, one subset
populated per storage type.  `pfx` stands for the JS field `details.prefix`
(that spelling is a reserved word here).  Structural equality of these
records models lodash `_.isEqual` on the JS objects. -/
structure Details where
  bucket : Option String := none
  pfx : Option String := none
  container : Option String := none
  path : Option String := none
  url : Option String := none
  message : Option String := none
  reason : Option String := none
deriving Repr, DecidableEq

/-- A stored artifact row, as persisted by `Artifact.create`. -/
structure Artifact where
  taskId : String
  runId : Nat
  name : String
  storageType : String
  contentType : String
  details : Details
  expires : Int
deriving Repr, DecidableEq

/-- One run of a task, as read from `task.runs[runId]`.  `resolved` is the
resolution timestamp in ms (meaningful once the run is resolved). -/
structure Run where
  state : String
  workerGroup : String
  workerId : String
  resolved : Int
deriving Repr, DecidableEq

/-- Read-only projection of the Task entity consumed by this module.
`statusJson` stands for the serialized result of `task.status()`. -/
structure QTask where
  taskId : String
  expires : Int
  routes : List String
  runs : List Run
  statusJson : String
deriving Repr, DecidableEq

/-- An S3-compatible bucket adapter: its name plus the URL-signing
capabilities consumed by this module (`createPutUrl(key, opts)`,
`createGetUrl(key, forceSameRegion)`, `createSignedGetUrl(key, opts)`). -/
structure Bucket where
  bucket : String
  createPutUrl : String → String → Nat → String
  createGetUrl : String → Bool → String
  createSignedGetUrl : String → Nat → String

/-- The Azure blob-container adapter consumed by this module. -/
structure BlobStore where
  container : String
  generateWriteSAS : String → Int → String
  createSignedGetUrl : String → Int → String

/-- The service context (`this` in the handlers): the configured buckets,
blob store, home region and cloud-mirror host. -/
structure Context where
  publicBucket : Bucket
  privateBucket : Bucket
  blobStore : BlobStore
  artifactRegion : String
  cloudMirrorHost : String

/-- The request body of `createArtifact` after JSON-schema validation.
Fields not used by a given storage type arrive absent (`none`). -/
structure CreateInput where
  storageType : String
  contentType : Option String := none
  expires : Int
  url : Option String := none
  message : Option String := none
  reason : Option String := none
deriving Repr, DecidableEq

/-- JS `v || d` on an optional string: `undefined` and the empty string are
both falsy and select the default. -/
def jsOr (v : Option String) (d : String) : String :=
  match v with
  | none => d
  | some s => if s = "" then d else s

/-- JS string conversion of a possibly-undefined value, as it would appear
once interpolated into a URL or message. -/
def jsStr (v : Option String) : String :=
  match v with
  | none => "undefined"
  | some s => s

/-- JS `/^public\x2f/.test(name)`: prefix test on the char sequence (the
regex engine is modelled by a structural prefix check). -/
def strStartsWith (s p : String) : Bool := p.toList.isPrefixOf s.toList

/-- JS `String.prototype.toLowerCase` on the header values used here. -/
def jsToLower (s : String) : String := String.mk (s.toList.map Char.toLower)

/-- The artifact store: rows of the authoritative artifact table. -/
abbrev Store := List Artifact

/-- Row predicate for the composite unique key `(taskId, runId, name)`. -/
def keyMatches (a : Artifact) (taskId : String) (runId : Nat) (name : String) : Bool :=
  a.taskId == taskId && a.runId == runId && a.name == name

/-- `Artifact.load({taskId, runId, name})`: fetch the row with the key. -/
def Store.load (s : Store) (taskId : String) (runId : Nat) (name : String) : Option Artifact :=
  s.find? (fun a => keyMatches a taskId runId name)

/-- `artifact.modify(mutator)`: rewrite the row(s) with the given key. -/
def Store.modifyEntry (s : Store) (taskId : String) (runId : Nat) (name : String)
    (f : Artifact → Artifact) : Store :=
  s.map (fun a => if keyMatches a taskId runId name then f a else a)

/-- `Artifact.query({taskId, runId}, …)`: the rows of one run.  Paging is a
collaborator concern of the underlying table; the page cut is modelled by a
plain `take` on the result below. -/
def Store.query (s : Store) (taskId : String) (runId : Nat) : List Artifact :=
  s.filter (fun a => a.taskId == taskId && a.runId == runId)

/-- `[taskId, runId, name].join('/')` with `runId` a number. -/
def joinPath (taskId : String) (runId : Nat) (name : String) : String :=
  taskId ++ "/" ++ toString runId ++ "/" ++ name

def expiresPastMsg : String := "Expires must be in the future"

def taskNotFoundMsg : String := "Task not found"

def runNotFoundMsg : String := "Run not found"

/-- The `InputError` text quoting both timestamps when the artifact would
outlive its task. -/
def expiresAfterTaskMsg (expires taskExpires : Int) : String :=
  "Artifact expires (" ++ toString expires ++ ") after the task expiration " ++
    toString taskExpires ++
    " (task.expires < expires) - this is now allowed, artifacts must expire before the task they belong to"

/-- The `RequestConflict` text for uploads to a run that is no longer
uploadable, citing the task status structure. -/
def runStateConflictMsg (status : String) : String :=
  "Artifacts cannot be created for a task after it is resolved, unless it is resolved exception, and even in this case only up to 25 min past resolution. Task status: " ++ status

def conflictTypeMsg : String :=
  "Artifact already exists, with different type or later expiration"

def conflictDetailsMsg : String :=
  "Artifact already exists, with different contentType or error message"

def nullBucketMsg : String := "TypeError: cannot call createPutUrl of null"

/-- The run-state gate of `createArtifact`: running runs may upload, and
runs resolved `exception` may upload while
`run.resolved > Date.now() - 25*60*1000`. -/
def runUploadable (now : Int) (run : Run) : Bool :=
  run.state == "running" ||
    (run.state == "exception" && decide (run.resolved > now - 25 * 60 * 1000))

/-- Variant construction: the `switch (storageType)` populating `details`.
An unrecognized storage type is the thrown `Error` of the default case. -/
def mkDetails (ctx : Context) (taskId : String) (runId : Nat) (name : String)
    (input : CreateInput) : Except String Details :=
  let isPublic := strStartsWith name "public/"
  if input.storageType = "s3" then
    .ok { bucket := some (if isPublic then ctx.publicBucket.bucket else ctx.privateBucket.bucket),
          pfx := some (joinPath taskId runId name) }
  else if input.storageType = "azure" then
    .ok { container := some ctx.blobStore.container,
          path := some (joinPath taskId runId name) }
  else if input.storageType = "reference" then
    .ok { url := input.url }
  else if input.storageType = "error" then
    .ok { message := input.message, reason := input.reason }
  else
    .error ("Unknown storageType: " ++ input.storageType)

/-- Outcome of the idempotency branch on `EntityAlreadyExists`. -/
inductive Reconcile
  | conflictTypeOrExpiration
  | conflictDetails
  | updated (a : Artifact)
deriving Repr, DecidableEq

/-- The catch-block body of `createArtifact`: compare the freshly requested
artifact against the existing row and either report a conflict or produce
the modified row (new `expires` and `details`). -/
def reconcileExisting (existing : Artifact) (storageType contentType : String)
    (details : Details) (expires : Int) : Reconcile :=
  if existing.storageType ≠ storageType ∨ existing.contentType ≠ contentType
      ∨ existing.expires > expires then
    .conflictTypeOrExpiration
  else if storageType ≠ "reference" ∧ existing.details ≠ details then
    .conflictDetails
  else
    .updated { existing with expires := expires, details := details }

/-- The reply body of a successful `createArtifact`. -/
inductive CreateReply
  | s3Reply (contentType : String) (expires : Int) (putUrl : String)
  | azureReply (contentType : String) (expires : Int) (putUrl : String)
  | simpleReply (storageType : String)
deriving Repr, DecidableEq

/-- Client-visible outcome of a `createArtifact` call.  `unauthorized`
models `req.satisfies` returning false (the authorizer already wrote the
response); `jsThrow` models an exception escaping the handler. -/
inductive CreateOutcome
  | inputError (message : String)
  | unauthorized
  | requestConflict (message : String)
  | jsThrow (message : String)
  | success (reply : CreateReply)
deriving Repr, DecidableEq

/-- The `artifactCreated` message published after the store commit. -/
structure PublishedEvent where
  status : String
  artifact : Artifact
  workerGroup : String
  workerId : String
  runId : Nat
  routes : List String
deriving Repr, DecidableEq

/-- Result of a `createArtifact` call: the post-call store, the published
events, and the outcome. -/
structure CreateResult where
  store : Store
  published : List PublishedEvent
  outcome : CreateOutcome
deriving Repr, DecidableEq

/-- The two successive `if` statements choosing the bucket adapter whose
name equals the stored `details.bucket`, starting from `null`. -/
def selectBucket (ctx : Context) (bucketName : Option String) : Option Bucket :=
  let b0 : Option Bucket := none
  let b1 := if bucketName = some ctx.publicBucket.bucket then some ctx.publicBucket else b0
  if bucketName = some ctx.privateBucket.bucket then some ctx.privateBucket else b1

/-- The final `switch (artifact.storageType)` of `createArtifact` building
the response; for `s3` a `null` bucket would make the `createPutUrl` call
throw. -/
def createReply (ctx : Context) (now : Int) (artifact : Artifact) : CreateOutcome :=
  if artifact.storageType = "s3" then
    match selectBucket ctx artifact.details.bucket with
    | some bucket =>
      .success (.s3Reply artifact.contentType (now + 30 * 60 * 1000)
        (bucket.createPutUrl (jsStr artifact.details.pfx) artifact.contentType (30 * 60 + 10)))
    | none => .jsThrow nullBucketMsg
  else if artifact.storageType = "azure" then
    .success (.azureReply artifact.contentType (now + 30 * 60 * 1000)
      (ctx.blobStore.generateWriteSAS (jsStr artifact.details.path) (now + 30 * 60 * 1000)))
  else if artifact.storageType = "reference" ∨ artifact.storageType = "error" then
    .success (.simpleReply artifact.storageType)
  else
    .jsThrow ("Unknown storageType: " ++ artifact.storageType)

/-- Post-commit tail of `createArtifact`: publish the `artifactCreated`
event to the task routes and build the reply. -/
def finalize (ctx : Context) (now : Int) (store : Store) (task : QTask) (run : Run)
    (runId : Nat) (artifact : Artifact) : CreateResult :=
  ⟨store,
   [⟨task.statusJson, artifact, run.workerGroup, run.workerId, runId, task.routes⟩],
   createReply ctx now artifact⟩

/-- The part of `createArtifact` that runs once every preflight validation
has passed: build the `details` variant, conditionally insert, reconcile on
a key conflict, then publish and reply. -/
def createArtifactBody (ctx : Context) (now : Int) (store : Store) (task : QTask) (run : Run)
    (taskId : String) (runId : Nat) (name : String) (input : CreateInput) : CreateResult :=
  let contentType := jsOr input.contentType "application/json"
  let expires := input.expires
  match mkDetails ctx taskId runId name input with
  | .error m => ⟨store, [], .jsThrow m⟩
  | .ok details =>
    match Store.load store taskId runId name with
    | none =>
      let artifact : Artifact :=
        ⟨taskId, runId, name, input.storageType, contentType, details, expires⟩
      finalize ctx now (artifact :: store) task run runId artifact
    | some existing =>
      match reconcileExisting existing input.storageType contentType details expires with
      | .conflictTypeOrExpiration => ⟨store, [], .requestConflict conflictTypeMsg⟩
      | .conflictDetails => ⟨store, [], .requestConflict conflictDetailsMsg⟩
      | .updated updated =>
        finalize ctx now (Store.modifyEntry store taskId runId name (fun _ => updated))
          task run runId updated

/-- The `createArtifact` handler.  `taskOpt` is the result of
`Task.load({taskId}, true)` and `authorized` the result of
`req.satisfies(…)`; the validations run in the source order, each failure
short-circuiting before any store write or publish. -/
def createArtifact (ctx : Context) (now : Int) (store : Store) (taskOpt : Option QTask)
    (authorized : Bool) (taskId : String) (runId : Nat) (name : String)
    (input : CreateInput) : CreateResult :=
  let expires := input.expires
  let past := now - 15 * 60 * 1000
  if expires < past then
    ⟨store, [], .inputError expiresPastMsg⟩
  else
    match taskOpt with
    | none => ⟨store, [], .inputError taskNotFoundMsg⟩
    | some task =>
      match task.runs[runId]? with
      | none => ⟨store, [], .inputError runNotFoundMsg⟩
      | some run =>
        if authorized = false then
          ⟨store, [], .unauthorized⟩
        else if expires > task.expires then
          ⟨store, [], .inputError (expiresAfterTaskMsg expires task.expires)⟩
        else if runUploadable now run = false then
          ⟨store, [], .requestConflict (runStateConflictMsg task.statusJson)⟩
        else
          createArtifactBody ctx now store task run taskId runId name input

/-- Hex digits used by the percent encoder. -/
def hexDigits : List Char :=
  ['0', '1', '2', '3', '4', '5', '6', '7', '8', '9', 'A', 'B', 'C', 'D', 'E', 'F']

def hexDigit (n : Nat) : Char := hexDigits.getD n '0'

def percentEncodeByte (b : Nat) : String :=
  "%" ++ String.singleton (hexDigit (b / 16 % 16)) ++ String.singleton (hexDigit (b % 16))

/-- UTF-8 bytes of a code point. -/
def utf8Bytes (c : Char) : List Nat :=
  let n := c.toNat
  if n < 0x80 then [n]
  else if n < 0x800 then [0xC0 + n / 64, 0x80 + n % 64]
  else if n < 0x10000 then [0xE0 + n / 4096, 0x80 + n / 64 % 64, 0x80 + n % 64]
  else [0xF0 + n / 262144, 0x80 + n / 4096 % 64, 0x80 + n / 64 % 64, 0x80 + n % 64]

/-- Characters left intact by JS `encodeURIComponent`. -/
def uriUnreserved : List Char :=
  ['-', '_', '.', '!', '~', '*', Char.ofNat 39, '(', ')']

def isURIUnreserved (c : Char) : Bool :=
  c.isAlphanum || uriUnreserved.contains c

/-- JS `encodeURIComponent`: percent-encode every byte of every reserved
character. -/
def encodeURIComponent (s : String) : String :=
  String.join (s.toList.map (fun c =>
    if isURIUnreserved c then String.singleton c
    else String.join ((utf8Bytes c).map percentEncodeByte)))

/-- Node `url.format({protocol: "https:", host, pathname})`: a leading
slash is inserted before the path when missing. -/
def urlFormat (host pathname : String) : String :=
  if strStartsWith pathname "/" = true then "https://" ++ host ++ pathname
  else "https://" ++ host ++ "/" ++ pathname

/-- The request-derived inputs of the artifact get path: the region the
region resolver assigned (absent or empty means unknown) and the raw
`x-taskcluster-skip-cache` header. -/
structure GetRequest where
  region : Option String := none
  skipCache : Option String := none
deriving Repr, DecidableEq

/-- Client-visible outcome of an artifact get.  `refError` models a thrown
`ReferenceError` on an identifier that is not defined; `assertFailed`
models a failed `assert`. -/
inductive GetOutcome
  | notFound (message : String)
  | unauthorized
  | redirect (status : Nat) (url : String)
  | errorResponse (status : Nat) (reason message : String)
  | assertFailed (message : String)
  | refError (name : String)
deriving Repr, DecidableEq

/-- The shared `replyWithArtifact(taskId, runId, name, req, res)` helper.
The first component of the result collects the messages passed to
`monitor.reportError`.  In the unknown-storage-type tail the source reads
`artifacts.storageType` where no `artifacts` binding is in scope, so the
handler throws a `ReferenceError` before any monitor report. -/
def replyWithArtifact (ctx : Context) (now : Int) (store : Store) (taskId : String)
    (runId : Nat) (name : String) (req : GetRequest) : List String × GetOutcome :=
  match Store.load store taskId runId name with
  | none => ([], .notFound "Artifact not found")
  | some artifact =>
    if artifact.storageType = "s3" then
      let region := req.region.getD ""
      let pfx := jsStr artifact.details.pfx
      let bucket := artifact.details.bucket
      if bucket = some ctx.publicBucket.bucket then
        let skipCacheHeader := jsToLower (req.skipCache.getD "")
        let url :=
          if region = "" then
            ctx.publicBucket.createGetUrl pfx false
          else if skipCacheHeader = "true" ∨ skipCacheHeader = "1" then
            ctx.publicBucket.createGetUrl pfx false
          else if ctx.artifactRegion = region then
            ctx.publicBucket.createGetUrl pfx true
          else
            let canonicalArtifactUrl := ctx.publicBucket.createGetUrl pfx true
            let cloudMirrorPath :=
              "v1/redirect/s3/" ++ region ++ "/" ++ encodeURIComponent canonicalArtifactUrl
            urlFormat ctx.cloudMirrorHost cloudMirrorPath
        ([], .redirect 303 url)
      else if bucket = some ctx.privateBucket.bucket then
        ([], .redirect 303 (ctx.privateBucket.createSignedGetUrl pfx (30 * 60)))
      else
        ([], .assertFailed "Url should have been constructed!")
    else if artifact.storageType = "azure" then
      let monitored :=
        if artifact.details.container ≠ some ctx.blobStore.container then
          ["Unknown container: " ++ jsStr artifact.details.container ++ " for artifact"]
        else []
      (monitored, .redirect 303
        (ctx.blobStore.createSignedGetUrl (jsStr artifact.details.path) (now + 30 * 60 * 1000)))
    else if artifact.storageType = "reference" then
      ([], .redirect 303 (jsStr artifact.details.url))
    else if artifact.storageType = "error" then
      ([], .errorResponse 403 (jsStr artifact.details.reason) (jsStr artifact.details.message))
    else
      ([], .refError "artifacts")

/-- The `getArtifact` handler: public names bypass the authorizer, then
defer to `replyWithArtifact`. -/
def getArtifact (ctx : Context) (now : Int) (store : Store) (authorized : Bool)
    (taskId : String) (runId : Nat) (name : String) (req : GetRequest) :
    List String × GetOutcome :=
  if strStartsWith name "public/" = false ∧ authorized = false then ([], .unauthorized)
  else replyWithArtifact ctx now store taskId runId name req

/-- The `getLatestArtifact` handler: the implicit runId is
`task.runs.length - 1`. -/
def getLatestArtifact (ctx : Context) (now : Int) (store : Store) (authorized : Bool)
    (taskId : String) (taskOpt : Option QTask) (name : String) (req : GetRequest) :
    List String × GetOutcome :=
  if strStartsWith name "public/" = false ∧ authorized = false then ([], .unauthorized)
  else
    match taskOpt with
    | none => ([], .notFound "Task not found")
    | some task =>
      if task.runs.length = 0 then ([], .notFound "Task does not have any runs")
      else replyWithArtifact ctx now store taskId (task.runs.length - 1) name req

/-- Result of a list endpoint: a 404 or one page of artifact rows. -/
inductive ListOutcome
  | notFound (message : String)
  | page (artifacts : List Artifact)
deriving Repr, DecidableEq

/-- The `listLatestArtifacts` handler: resolve the latest runId and query
the store for that run's rows (the continuation token of the underlying
table is a collaborator concern left out of the model). -/
def listLatestArtifacts (store : Store) (taskId : String) (taskOpt : Option QTask)
    (limit : Nat) : ListOutcome :=
  match taskOpt with
  | none => .notFound ("No task with taskId: " ++ taskId ++ " found")
  | some task =>
    if task.runs.length = 0 then
      .notFound ("Task with taskId: " ++ taskId ++ " does not have any runs")
    else
      .page ((Store.query store taskId (task.runs.length - 1)).take limit)

/-! ## Concrete service fixtures for closed evaluations -/

def pubBucket0 : Bucket :=
  { bucket := "public-bucket",
    createPutUrl := fun k ct _n => "put:" ++ k ++ ":" ++ ct,
    createGetUrl := fun k same => (if same then "sr:" else "cdn:") ++ k,
    createSignedGetUrl := fun k _n => "sget:" ++ k }

def privBucket0 : Bucket :=
  { bucket := "private-bucket",
    createPutUrl := fun k ct _n => "pput:" ++ k ++ ":" ++ ct,
    createGetUrl := fun k same => (if same then "psr:" else "pcdn:") ++ k,
    createSignedGetUrl := fun k _n => "psget:" ++ k }

def blobStore0 : BlobStore :=
  { container := "artifact-container",
    generateWriteSAS := fun p _e => "sas:" ++ p,
    createSignedGetUrl := fun p _e => "bget:" ++ p }

def ctx0 : Context :=
  { publicBucket := pubBucket0, privateBucket := privBucket0,
    blobStore := blobStore0, artifactRegion := "us-west-2",
    cloudMirrorHost := "mirror.example.com" }

def run0 : Run :=
  { state := "running", workerGroup := "wg", workerId := "wi", resolved := 0 }

def task0 : QTask :=
  { taskId := "t1", expires := 3000000, routes := ["route.a"], runs := [run0],
    statusJson := "status-t1" }

def storedS3 : Artifact :=
  { taskId := "t1", runId := 0, name := "public/log.txt", storageType := "s3",
    contentType := "text/plain",
    details := { bucket := some "public-bucket", pfx := some "t1/0/public/log.txt" },
    expires := 2000000 }

/-! ## Shared lemmas about the store -/

theorem keyMatches_fields {a : Artifact} {t : String} {r : Nat} {n : String}
    (h : keyMatches a t r n = true) : a.taskId = t ∧ a.runId = r ∧ a.name = n := by
  simpa [keyMatches, and_assoc] using h

theorem Store.load_keyMatches {s : Store} {t : String} {r : Nat} {n : String} {a : Artifact}
    (h : Store.load s t r n = some a) : keyMatches a t r n = true := by
  unfold Store.load at h
  have h2 := List.find?_some h
  simpa using h2

theorem Store.load_modifyEntry (s : Store) (t : String) (r : Nat) (n : String)
    (f : Artifact → Artifact)
    (hf : ∀ a, keyMatches a t r n = true → keyMatches (f a) t r n = true) :
    Store.load (Store.modifyEntry s t r n f) t r n = (Store.load s t r n).map f := by
  induction s with
  | nil => rfl
  | cons a s ih =>
    by_cases h : keyMatches a t r n = true
    · have h1 : Store.load (Store.modifyEntry (a :: s) t r n f) t r n = some (f a) := by
        simp only [Store.modifyEntry, List.map_cons, if_pos h, Store.load]
        exact List.find?_cons_of_pos _ (hf a h)
      have h2 : Store.load (a :: s) t r n = some a := by
        simp only [Store.load]
        exact List.find?_cons_of_pos _ h
      rw [h1, h2]
      rfl
    · have h1 : Store.load (Store.modifyEntry (a :: s) t r n f) t r n
          = Store.load (Store.modifyEntry s t r n f) t r n := by
        simp only [Store.modifyEntry, List.map_cons, if_neg h, Store.load]
        exact List.find?_cons_of_neg _ (by simpa using h)
      have h2 : Store.load (a :: s) t r n = Store.load s t r n := by
        simp only [Store.load]
        exact List.find?_cons_of_neg _ (by simpa using h)
      rw [h1, h2, ih]

/-! ## Shared lemmas about variant construction and reconciliation -/

theorem mkDetails_ok {ctx : Context} {taskId : String} {runId : Nat} {name : String}
    {input : CreateInput} {d : Details}
    (hd : mkDetails ctx taskId runId name input = .ok d) :
    (input.storageType = "s3" ∧
      d = { bucket := some (if strStartsWith name "public/" then ctx.publicBucket.bucket
                            else ctx.privateBucket.bucket),
            pfx := some (joinPath taskId runId name) })
    ∨ (input.storageType = "azure" ∧
      d = { container := some ctx.blobStore.container,
            path := some (joinPath taskId runId name) })
    ∨ (input.storageType = "reference" ∧ d = { url := input.url })
    ∨ (input.storageType = "error" ∧
      d = { message := input.message, reason := input.reason }) := by
  unfold mkDetails at hd
  split_ifs at hd with h1 h2 h3 h4 <;> simp_all

theorem reconcileExisting_conflict1 {existing : Artifact} {st ct : String} {d : Details}
    {e : Int}
    (h : existing.storageType ≠ st ∨ existing.contentType ≠ ct ∨ existing.expires > e) :
    reconcileExisting existing st ct d e = .conflictTypeOrExpiration := by
  unfold reconcileExisting
  rw [if_pos h]

theorem reconcileExisting_conflict2 {existing : Artifact} {st ct : String} {d : Details}
    {e : Int}
    (h1 : existing.storageType = st) (h2 : existing.contentType = ct)
    (h3 : ¬ existing.expires > e) (h4 : st ≠ "reference" ∧ existing.details ≠ d) :
    reconcileExisting existing st ct d e = .conflictDetails := by
  unfold reconcileExisting
  rw [if_neg (by push_neg; exact ⟨h1, h2, not_lt.mp h3⟩), if_pos h4]

theorem reconcileExisting_updated {existing : Artifact} {st ct : String} {d : Details}
    {e : Int}
    (h1 : existing.storageType = st) (h2 : existing.contentType = ct)
    (h3 : ¬ existing.expires > e) (h4 : st = "reference" ∨ existing.details = d) :
    reconcileExisting existing st ct d e
      = .updated { existing with expires := e, details := d } := by
  unfold reconcileExisting
  rw [if_neg (by push_neg; exact ⟨h1, h2, not_lt.mp h3⟩),
    if_neg (by push_neg; intro hne; rcases h4 with h | h; exact absurd h hne; exact h)]

theorem selectBucket_isSome (ctx : Context) (b : String)
    (h : b = ctx.publicBucket.bucket ∨ b = ctx.privateBucket.bucket) :
    ∃ bk, selectBucket ctx (some b) = some bk := by
  by_cases hp : (some b : Option String) = some ctx.privateBucket.bucket
  · exact ⟨ctx.privateBucket, by simp [selectBucket, hp]⟩
  · have hb : b = ctx.publicBucket.bucket := by
      rcases h with h | h
      · exact h
      · exact absurd (by rw [h]) hp
    subst hb
    exact ⟨ctx.publicBucket, by simp [selectBucket, hp]⟩

theorem createReply_ok (ctx : Context) (now : Int) (a : Artifact)
    (h : (a.storageType = "s3" ∧ (a.details.bucket = some ctx.publicBucket.bucket
            ∨ a.details.bucket = some ctx.privateBucket.bucket))
       ∨ a.storageType = "azure" ∨ a.storageType = "reference"
       ∨ a.storageType = "error") :
    ∃ rep, createReply ctx now a = .success rep := by
  unfold createReply
  rcases h with ⟨hs, hb⟩ | h | h | h
  · rw [if_pos hs]
    have hsel : ∃ bk, selectBucket ctx a.details.bucket = some bk := by
      rcases hb with hb | hb
      · rw [hb]; exact selectBucket_isSome ctx _ (Or.inl rfl)
      · rw [hb]; exact selectBucket_isSome ctx _ (Or.inr rfl)
    obtain ⟨bk, hbk⟩ := hsel
    rw [hbk]
    exact ⟨_, rfl⟩
  · rw [if_neg (by simp [h]), if_pos h]
    exact ⟨_, rfl⟩
  · rw [if_neg (by simp [h]), if_neg (by simp [h]), if_pos (Or.inl h)]
    exact ⟨_, rfl⟩
  · rw [if_neg (by simp [h]), if_neg (by simp [h]), if_pos (Or.inr h)]
    exact ⟨_, rfl⟩

/-! ## Shared lemmas about the create path -/

theorem createArtifact_validated (ctx : Context) (now : Int) (store : Store)
    (taskOpt : Option QTask) (authorized : Bool) (taskId : String) (runId : Nat)
    (name : String) (input : CreateInput) (task : QTask) (run : Run)
    (h1 : ¬ input.expires < now - 15 * 60 * 1000) (h2 : taskOpt = some task)
    (h3 : task.runs[runId]? = some run) (h4 : authorized = true)
    (h5 : ¬ input.expires > task.expires) (h6 : runUploadable now run = true) :
    createArtifact ctx now store taskOpt authorized taskId runId name input
      = createArtifactBody ctx now store task run taskId runId name input := by
  subst h2; subst h4
  simp only [createArtifact, h3]
  rw [if_neg h1, if_neg (by simp : ¬(true = false)), if_neg h5,
    if_neg (by simp [h6] : ¬(runUploadable now run = false))]

theorem createArtifactBody_existing (ctx : Context) (now : Int) (store : Store)
    (task : QTask) (run : Run) (taskId : String) (runId : Nat) (name : String)
    (input : CreateInput) (existing : Artifact) (d : Details)
    (hd : mkDetails ctx taskId runId name input = .ok d)
    (hload : Store.load store taskId runId name = some existing) :
    createArtifactBody ctx now store task run taskId runId name input
      = match reconcileExisting existing input.storageType
          (jsOr input.contentType "application/json") d input.expires with
        | .conflictTypeOrExpiration => ⟨store, [], .requestConflict conflictTypeMsg⟩
        | .conflictDetails => ⟨store, [], .requestConflict conflictDetailsMsg⟩
        | .updated updated =>
          finalize ctx now (Store.modifyEntry store taskId runId name (fun _ => updated))
            task run runId updated := by
  simp [createArtifactBody, hd, hload]

/-! ## Claim C2 — preflight validation order -/

/-- Claim C2: for every `createArtifact` call the preflight validations run
in the source order — stale `expires`, missing task, missing run, the
authorization check, `expires` past `task.expires`, and the run-state gate
— each failure short-circuiting with the stated error kind while leaving
the store unwritten and publishing nothing. -/
theorem createArtifact_preflight_order (ctx : Context) (now : Int) (store : Store)
    (taskOpt : Option QTask) (authorized : Bool) (taskId : String) (runId : Nat)
    (name : String) (input : CreateInput) :
    (input.expires < now - 15 * 60 * 1000 →
      createArtifact ctx now store taskOpt authorized taskId runId name input
        = ⟨store, [], .inputError expiresPastMsg⟩)
    ∧ (¬ input.expires < now - 15 * 60 * 1000 → taskOpt = none →
      createArtifact ctx now store taskOpt authorized taskId runId name input
        = ⟨store, [], .inputError taskNotFoundMsg⟩)
    ∧ (∀ task, ¬ input.expires < now - 15 * 60 * 1000 → taskOpt = some task →
        task.runs[runId]? = none →
      createArtifact ctx now store taskOpt authorized taskId runId name input
        = ⟨store, [], .inputError runNotFoundMsg⟩)
    ∧ (∀ task run, ¬ input.expires < now - 15 * 60 * 1000 → taskOpt = some task →
        task.runs[runId]? = some run → authorized = false →
      createArtifact ctx now store taskOpt authorized taskId runId name input
        = ⟨store, [], .unauthorized⟩)
    ∧ (∀ task run, ¬ input.expires < now - 15 * 60 * 1000 → taskOpt = some task →
        task.runs[runId]? = some run → authorized = true →
        input.expires > task.expires →
      createArtifact ctx now store taskOpt authorized taskId runId name input
        = ⟨store, [], .inputError (expiresAfterTaskMsg input.expires task.expires)⟩)
    ∧ (∀ task run, ¬ input.expires < now - 15 * 60 * 1000 → taskOpt = some task →
        task.runs[runId]? = some run → authorized = true →
        ¬ input.expires > task.expires → runUploadable now run = false →
      createArtifact ctx now store taskOpt authorized taskId runId name input
        = ⟨store, [], .requestConflict (runStateConflictMsg task.statusJson)⟩) := by
  refine ⟨?_, ?_, ?_, ?_, ?_, ?_⟩
  · intro h
    simp only [createArtifact]
    rw [if_pos h]
  · intro h1 h2
    subst h2
    simp only [createArtifact]
    rw [if_neg h1]
  · intro task h1 h2 h3
    subst h2
    simp only [createArtifact, h3]
    rw [if_neg h1]
  · intro task run h1 h2 h3 h4
    subst h2; subst h4
    simp only [createArtifact, h3]
    rw [if_neg h1]
    simp
  · intro task run h1 h2 h3 h4 h5
    subst h2; subst h4
    simp only [createArtifact, h3]
    rw [if_neg h1]
    simp [h5]
  · intro task run h1 h2 h3 h4 h5 h6
    subst h2; subst h4
    simp only [createArtifact, h3]
    rw [if_neg h1]
    simp [h5, h6]

def inputPast : CreateInput := { storageType := "s3", expires := 0 }

/-- Closed witness for C2 at a concrete stale-expires call. -/
theorem createArtifact_preflight_order_witness :
    createArtifact ctx0 2000000 [] (some task0) true "t1" 0 "a.txt" inputPast
      = ⟨[], [], .inputError expiresPastMsg⟩ :=
  (createArtifact_preflight_order ctx0 2000000 [] (some task0) true "t1" 0 "a.txt"
      inputPast).1 (by decide)

/-! ## Claim C7 — run-state gate and the 25-minute exception window -/

def runExc25 : Run :=
  { state := "exception", workerGroup := "wg", workerId := "wi", resolved := 0 }

def taskExc : QTask :=
  { taskId := "t2", expires := 900000000, routes := [], runs := [runExc25],
    statusJson := "status-t2" }

def inputErrArt : CreateInput :=
  { storageType := "error", expires := 2000000, message := some "m", reason := some "r" }

/-- Counterexample to C7 as stated: at exactly 25 minutes past resolution
of an `exception` run, with every other validation passing, the call is
rejected with `RequestConflict` — the source comparison is strict, so the
claimed boundary case is not allowed. -/
theorem createArtifact_exact_25min_rejected :
    1500000 - runExc25.resolved = 25 * 60 * 1000 ∧
    (createArtifact ctx0 1500000 [] (some taskExc) true "t2" 0 "a" inputErrArt).outcome
      = .requestConflict (runStateConflictMsg "status-t2") :=
  ⟨by decide, rfl⟩

/-- Claim C7 (amended): with the earlier validations passing, upload is
allowed when the run is `running`; for an `exception` run it is allowed iff
`now − run.resolved` is strictly below 25 minutes (so it is rejected at
exactly 25 minutes); every other state is rejected; rejection is a
`RequestConflict` citing the task status, and an allowed run proceeds into
the create body. -/
theorem createArtifact_run_state_gate (ctx : Context) (now : Int) (store : Store)
    (taskOpt : Option QTask) (authorized : Bool) (taskId : String) (runId : Nat)
    (name : String) (input : CreateInput) (task : QTask) (run : Run)
    (h1 : ¬ input.expires < now - 15 * 60 * 1000) (h2 : taskOpt = some task)
    (h3 : task.runs[runId]? = some run) (h4 : authorized = true)
    (h5 : ¬ input.expires > task.expires) :
    (run.state = "running" → runUploadable now run = true)
    ∧ (run.state = "exception" →
        (runUploadable now run = true ↔ now - run.resolved < 25 * 60 * 1000))
    ∧ (run.state ≠ "running" → run.state ≠ "exception" → runUploadable now run = false)
    ∧ (runUploadable now run = false →
        createArtifact ctx now store taskOpt authorized taskId runId name input
          = ⟨store, [], .requestConflict (runStateConflictMsg task.statusJson)⟩)
    ∧ (runUploadable now run = true →
        createArtifact ctx now store taskOpt authorized taskId runId name input
          = createArtifactBody ctx now store task run taskId runId name input) := by
  refine ⟨?_, ?_, ?_, ?_, ?_⟩
  · intro h
    simp [runUploadable, h]
  · intro h
    simp only [runUploadable, h]
    simp [decide_eq_true_iff]
    omega
  · intro hr he
    simp [runUploadable, hr, he]
  · intro h6
    subst h2; subst h4
    simp only [createArtifact, h3]
    rw [if_neg h1, if_neg (by simp), if_neg h5, if_pos h6]
  · intro h6
    exact createArtifact_validated ctx now store taskOpt authorized taskId runId name
      input task run h1 h2 h3 h4 h5 h6

def runExcOk : Run :=
  { state := "exception", workerGroup := "wg", workerId := "wi", resolved := 1000000 }

def taskExcOk : QTask :=
  { taskId := "t3", expires := 900000000, routes := [], runs := [runExcOk],
    statusJson := "status-t3" }

/-- Closed witness for C7 (amended) at an exception run resolved 500
seconds before the call. -/
theorem createArtifact_run_state_gate_witness :
    runUploadable 1500000 runExcOk = true :=
  ((createArtifact_run_state_gate ctx0 1500000 [] (some taskExcOk) true "t3" 0 "a"
      inputErrArt taskExcOk runExcOk (by decide) rfl rfl rfl (by decide)).2.1
    rfl).mpr (by decide)

/-! ## Claim C1 — expiration monotonicity across idempotent re-creates -/

def inputEarlier : CreateInput :=
  { storageType := "s3", contentType := some "text/plain", expires := 1500000 }

/-- Counterexample to C1 as stated: a re-create whose `expires` is strictly
earlier than the stored one, with every other field matching and every
validation passing, does not succeed — it is rejected with
`RequestConflict`. -/
theorem createArtifact_earlier_expires_conflicts :
    storedS3.expires > inputEarlier.expires ∧
    (createArtifact ctx0 1000000 [storedS3] (some task0) true "t1" 0 "public/log.txt"
        inputEarlier).outcome
      = .requestConflict conflictTypeMsg :=
  ⟨by decide, rfl⟩

/-- Claim C1 (amended): the stored `expires` is monotonic non-decreasing
across idempotent re-creates because a re-create with a strictly earlier
`expires` fails with `RequestConflict` and leaves the store untouched,
while any successful re-create of an existing row rewrites it with the
equal-or-later requested `expires`. -/
theorem createArtifact_expires_monotonic (ctx : Context) (now : Int) (store : Store)
    (taskOpt : Option QTask) (authorized : Bool) (taskId : String) (runId : Nat)
    (name : String) (input : CreateInput) (task : QTask) (run : Run)
    (existing : Artifact) (d : Details)
    (h1 : ¬ input.expires < now - 15 * 60 * 1000) (h2 : taskOpt = some task)
    (h3 : task.runs[runId]? = some run) (h4 : authorized = true)
    (h5 : ¬ input.expires > task.expires) (h6 : runUploadable now run = true)
    (hd : mkDetails ctx taskId runId name input = .ok d)
    (hload : Store.load store taskId runId name = some existing) :
    (existing.expires > input.expires →
      createArtifact ctx now store taskOpt authorized taskId runId name input
        = ⟨store, [], .requestConflict conflictTypeMsg⟩)
    ∧ (∀ rep,
        (createArtifact ctx now store taskOpt authorized taskId runId name input).outcome
          = .success rep →
      existing.expires ≤ input.expires ∧
      Store.load (createArtifact ctx now store taskOpt authorized taskId runId name
          input).store taskId runId name
        = some { existing with expires := input.expires, details := d }) := by
  have hval := createArtifact_validated ctx now store taskOpt authorized taskId runId
    name input task run h1 h2 h3 h4 h5 h6
  have hbody := createArtifactBody_existing ctx now store task run taskId runId name
    input existing d hd hload
  constructor
  · intro hgt
    rw [hval, hbody, reconcileExisting_conflict1 (Or.inr (Or.inr hgt))]
  · intro rep hrep
    rw [hval, hbody] at hrep ⊢
    by_cases hc1 : existing.storageType ≠ input.storageType
        ∨ existing.contentType ≠ jsOr input.contentType "application/json"
        ∨ existing.expires > input.expires
    · rw [reconcileExisting_conflict1 hc1] at hrep
      simp at hrep
    · push_neg at hc1
      obtain ⟨hst, hct, hle⟩ := hc1
      by_cases hc2 : input.storageType ≠ "reference" ∧ existing.details ≠ d
      · rw [reconcileExisting_conflict2 hst hct (not_lt.mpr hle) hc2] at hrep
        simp at hrep
      · have hc2' : input.storageType = "reference" ∨ existing.details = d := by
          rcases not_and_or.mp hc2 with h | h
          · exact Or.inl (not_not.mp h)
          · exact Or.inr (not_not.mp h)
        rw [reconcileExisting_updated hst hct (not_lt.mpr hle) hc2'] at hrep ⊢
        refine ⟨hle, ?_⟩
        have hkm : keyMatches { existing with expires := input.expires, details := d }
            taskId runId name = true := by
          have hk := Store.load_keyMatches hload
          simpa [keyMatches] using hk
        simp only [finalize]
        rw [Store.load_modifyEntry store taskId runId name
          (fun _ => { existing with expires := input.expires, details := d })
          (fun a _ => hkm), hload]
        rfl

/-- Closed witness for C1 (amended): a concrete strictly-earlier re-create
is rejected and the store is unchanged. -/
theorem createArtifact_expires_monotonic_witness :
    createArtifact ctx0 1000000 [storedS3] (some task0) true "t1" 0 "public/log.txt"
        inputEarlier
      = ⟨[storedS3], [], .requestConflict conflictTypeMsg⟩ :=
  (createArtifact_expires_monotonic ctx0 1000000 [storedS3] (some task0) true "t1" 0
      "public/log.txt" inputEarlier task0 run0 storedS3
      { bucket := some "public-bucket", pfx := some "t1/0/public/log.txt" }
      (by decide) rfl rfl rfl (by decide) rfl (by decide) rfl).1 (by decide)

/-! ## Claim C3 — the idempotency branch on a unique-key conflict -/

/-- Claim C3: when the conditional insert hits the unique key, the existing
row is compared with the request; a differing storage type, a differing
content type, or a stored `expires` later than the requested one conflicts,
as does (for non-`reference` types) any difference in `details`, each time
rejecting with `RequestConflict` and leaving the store unchanged; on a full
match (details ignored for `reference`, so `details.url` may differ) the
row is rewritten with the new `expires` and `details` and the call
succeeds. -/
theorem createArtifact_idempotency_branch (ctx : Context) (now : Int) (store : Store)
    (taskOpt : Option QTask) (authorized : Bool) (taskId : String) (runId : Nat)
    (name : String) (input : CreateInput) (task : QTask) (run : Run)
    (existing : Artifact) (d : Details)
    (h1 : ¬ input.expires < now - 15 * 60 * 1000) (h2 : taskOpt = some task)
    (h3 : task.runs[runId]? = some run) (h4 : authorized = true)
    (h5 : ¬ input.expires > task.expires) (h6 : runUploadable now run = true)
    (hd : mkDetails ctx taskId runId name input = .ok d)
    (hload : Store.load store taskId runId name = some existing) :
    (existing.storageType ≠ input.storageType
        ∨ existing.contentType ≠ jsOr input.contentType "application/json"
        ∨ existing.expires > input.expires →
      createArtifact ctx now store taskOpt authorized taskId runId name input
        = ⟨store, [], .requestConflict conflictTypeMsg⟩)
    ∧ (existing.storageType = input.storageType →
       existing.contentType = jsOr input.contentType "application/json" →
       ¬ existing.expires > input.expires →
       input.storageType ≠ "reference" → existing.details ≠ d →
      createArtifact ctx now store taskOpt authorized taskId runId name input
        = ⟨store, [], .requestConflict conflictDetailsMsg⟩)
    ∧ (existing.storageType = input.storageType →
       existing.contentType = jsOr input.contentType "application/json" →
       ¬ existing.expires > input.expires →
       (input.storageType = "reference" ∨ existing.details = d) →
      Store.load (createArtifact ctx now store taskOpt authorized taskId runId name
          input).store taskId runId name
        = some { existing with expires := input.expires, details := d }
      ∧ ∃ rep,
        (createArtifact ctx now store taskOpt authorized taskId runId name
            input).outcome = .success rep) := by
  have hval := createArtifact_validated ctx now store taskOpt authorized taskId runId
    name input task run h1 h2 h3 h4 h5 h6
  have hbody := createArtifactBody_existing ctx now store task run taskId runId name
    input existing d hd hload
  refine ⟨?_, ?_, ?_⟩
  · intro hc
    rw [hval, hbody, reconcileExisting_conflict1 hc]
  · intro hst hct hle href hdet
    rw [hval, hbody, reconcileExisting_conflict2 hst hct hle ⟨href, hdet⟩]
  · intro hst hct hle hfull
    rw [hval, hbody, reconcileExisting_updated hst hct hle hfull]
    have hkm : keyMatches { existing with expires := input.expires, details := d }
        taskId runId name = true := by
      have hk := Store.load_keyMatches hload
      simpa [keyMatches] using hk
    constructor
    · simp only [finalize]
      rw [Store.load_modifyEntry store taskId runId name
        (fun _ => { existing with expires := input.expires, details := d })
        (fun a _ => hkm), hload]
      rfl
    · simp only [finalize]
      apply createReply_ok
      rcases mkDetails_ok hd with ⟨hs, hdeq⟩ | ⟨hs, hdeq⟩ | ⟨hs, hdeq⟩ | ⟨hs, hdeq⟩
      · refine Or.inl ⟨hst.trans hs, ?_⟩
        subst hdeq
        by_cases hpub : strStartsWith name "public/" = true
        · exact Or.inl (by simp [hpub])
        · exact Or.inr (by simp [hpub])
      · exact Or.inr (Or.inl (hst.trans hs))
      · exact Or.inr (Or.inr (Or.inl (hst.trans hs)))
      · exact Or.inr (Or.inr (Or.inr (hst.trans hs)))

def storedErr : Artifact :=
  { taskId := "t1", runId := 0, name := "logs/fail.txt", storageType := "error",
    contentType := "application/json",
    details := { message := some "m", reason := some "r" }, expires := 2000000 }

def inputErrHtml : CreateInput :=
  { storageType := "error", contentType := some "text/html", expires := 2000000,
    message := some "m", reason := some "r" }

/-- Closed witness for C3: a re-create of an existing artifact with a
differing content type is rejected with the first conflict message and the
store is unchanged. -/
theorem createArtifact_idempotency_branch_witness :
    createArtifact ctx0 1000000 [storedErr] (some task0) true "t1" 0 "logs/fail.txt"
        inputErrHtml
      = ⟨[storedErr], [], .requestConflict conflictTypeMsg⟩ :=
  (createArtifact_idempotency_branch ctx0 1000000 [storedErr] (some task0) true "t1" 0
      "logs/fail.txt" inputErrHtml task0 run0 storedErr
      { message := some "m", reason := some "r" }
      (by decide) rfl rfl rfl (by decide) rfl (by decide) rfl).1
    (Or.inr (Or.inl (by decide)))

/-! ## Claim C6 — the S3 bucket/prefix invariant -/

theorem reconcileExisting_updated_inv {existing : Artifact} {st ct : String}
    {d : Details} {e : Int} {u : Artifact}
    (h : reconcileExisting existing st ct d e = .updated u) :
    u = { existing with expires := e, details := d } ∧ existing.storageType = st := by
  unfold reconcileExisting at h
  by_cases hc1 : existing.storageType ≠ st ∨ existing.contentType ≠ ct
      ∨ existing.expires > e
  · rw [if_pos hc1] at h
    cases h
  · rw [if_neg hc1] at h
    push_neg at hc1
    by_cases hc2 : st ≠ "reference" ∧ existing.details ≠ d
    · rw [if_pos hc2] at h
      cases h
    · rw [if_neg hc2] at h
      injection h with h
      exact ⟨h.symm, hc1.1⟩

/-- The three ways a `createArtifact` call can leave the store: untouched,
with the fresh row inserted, or with the existing row rewritten through the
idempotency branch. -/
theorem createArtifact_store_cases (ctx : Context) (now : Int) (store : Store)
    (taskOpt : Option QTask) (authorized : Bool) (taskId : String) (runId : Nat)
    (name : String) (input : CreateInput) :
    (createArtifact ctx now store taskOpt authorized taskId runId name input).store
      = store
    ∨ (∃ d, mkDetails ctx taskId runId name input = .ok d
        ∧ Store.load store taskId runId name = none
        ∧ (createArtifact ctx now store taskOpt authorized taskId runId name input).store
          = ⟨taskId, runId, name, input.storageType,
              jsOr input.contentType "application/json", d, input.expires⟩ :: store)
    ∨ (∃ d existing, mkDetails ctx taskId runId name input = .ok d
        ∧ Store.load store taskId runId name = some existing
        ∧ existing.storageType = input.storageType
        ∧ (createArtifact ctx now store taskOpt authorized taskId runId name input).store
          = Store.modifyEntry store taskId runId name
              (fun _ => { existing with expires := input.expires, details := d })) := by
  by_cases hpast : input.expires < now - 15 * 60 * 1000
  · exact Or.inl (by simp [createArtifact,
      (show input.expires < now - 900000 from by omega)])
  · have hpast9 : ¬ input.expires < now - 900000 := by omega
    cases htask : taskOpt with
    | none => exact Or.inl (by simp [createArtifact, hpast9])
    | some task =>
      cases hrun : task.runs[runId]? with
      | none => exact Or.inl (by simp [createArtifact, hpast9, hrun])
      | some run =>
        by_cases hauth : authorized = false
        · exact Or.inl (by simp [createArtifact, hpast9, hrun, hauth])
        · have hauth2 : authorized = true := by
            cases authorized
            · exact absurd rfl hauth
            · rfl
          by_cases hexp : input.expires > task.expires
          · exact Or.inl (by simp [createArtifact, hpast9, hrun, hauth2, hexp])
          · by_cases hupl : runUploadable now run = false
            · exact Or.inl
                (by simp [createArtifact, hpast9, hrun, hauth2, hexp, hupl])
            · have hupl2 : runUploadable now run = true := by
                cases h : runUploadable now run
                · exact absurd h hupl
                · rfl
              have hval := createArtifact_validated ctx now store taskOpt authorized
                taskId runId name input task run hpast htask hrun hauth2 hexp hupl2
              rw [htask] at hval
              rw [hval]
              cases hmk : mkDetails ctx taskId runId name input with
              | error m => exact Or.inl (by simp [createArtifactBody, hmk])
              | ok d =>
                cases hload : Store.load store taskId runId name with
                | none =>
                  exact Or.inr (Or.inl ⟨d, rfl, rfl,
                    by simp [createArtifactBody, hmk, hload, finalize]⟩)
                | some existing =>
                  have hbody := createArtifactBody_existing ctx now store task run
                    taskId runId name input existing d hmk hload
                  rw [hbody]
                  cases hrec : reconcileExisting existing input.storageType
                      (jsOr input.contentType "application/json") d input.expires with
                  | conflictTypeOrExpiration => exact Or.inl (by simp [hrec])
                  | conflictDetails => exact Or.inl (by simp [hrec])
                  | updated u =>
                    obtain ⟨hu, hst⟩ := reconcileExisting_updated_inv hrec
                    subst hu
                    exact Or.inr (Or.inr ⟨d, existing, rfl, rfl, hst,
                      by simp [hrec, finalize]⟩)

/-- The public/private bucket discipline of a stored S3 row: the bucket is
the public one exactly when the name carries the `public/` prefix, and the
object key is `taskId/runId/name`. -/
def s3DetailsInv (ctx : Context) (a : Artifact) : Prop :=
  a.storageType = "s3" →
    a.details.bucket
      = some (if strStartsWith a.name "public/" then ctx.publicBucket.bucket
              else ctx.privateBucket.bucket)
    ∧ a.details.pfx = some (joinPath a.taskId a.runId a.name)

/-- Claim C6: an S3 `createArtifact` call reaching variant construction
stores the public bucket exactly when the name begins with `public/` (the
private bucket otherwise) and the key `taskId/runId/name`; consequently
every store whose rows satisfy this invariant still satisfies it after any
`createArtifact` call. -/
theorem createArtifact_s3_bucket_inv (ctx : Context) (now : Int) (store : Store)
    (taskOpt : Option QTask) (authorized : Bool) (taskId : String) (runId : Nat)
    (name : String) (input : CreateInput)
    (hinv : ∀ a ∈ store, s3DetailsInv ctx a) :
    (input.storageType = "s3" →
      mkDetails ctx taskId runId name input
        = .ok { bucket := some (if strStartsWith name "public/" then ctx.publicBucket.bucket
                                else ctx.privateBucket.bucket),
                pfx := some (joinPath taskId runId name) })
    ∧ ∀ a ∈ (createArtifact ctx now store taskOpt authorized taskId runId name
        input).store, s3DetailsInv ctx a := by
  constructor
  · intro h
    simp [mkDetails, h]
  · intro a ha
    rcases createArtifact_store_cases ctx now store taskOpt authorized taskId runId
        name input with hs | ⟨d, hmk, _, hs⟩ | ⟨d, existing, hmk, hsome, hst, hs⟩
    · rw [hs] at ha
      exact hinv a ha
    · rw [hs] at ha
      rcases List.mem_cons.mp ha with rfl | hmem
      · intro hs3
        rcases mkDetails_ok hmk with ⟨h, hdeq⟩ | ⟨h, hdeq⟩ | ⟨h, hdeq⟩ | ⟨h, hdeq⟩
        · subst hdeq
          exact ⟨rfl, rfl⟩
        · exact absurd (h.symm.trans hs3) (by decide)
        · exact absurd (h.symm.trans hs3) (by decide)
        · exact absurd (h.symm.trans hs3) (by decide)
      · exact hinv a hmem
    · rw [hs] at ha
      obtain ⟨b, hb, hgb⟩ := List.mem_map.mp ha
      by_cases hkb : keyMatches b taskId runId name = true
      · rw [if_pos hkb] at hgb
        subst hgb
        intro hs3
        have hks := keyMatches_fields (Store.load_keyMatches hsome)
        rcases mkDetails_ok hmk with ⟨h, hdeq⟩ | ⟨h, hdeq⟩ | ⟨h, hdeq⟩ | ⟨h, hdeq⟩
        · subst hdeq
          refine ⟨?_, ?_⟩
          · show some (if strStartsWith name "public/" then ctx.publicBucket.bucket
                else ctx.privateBucket.bucket)
              = some (if strStartsWith existing.name "public/" then ctx.publicBucket.bucket
                else ctx.privateBucket.bucket)
            rw [hks.2.2]
          · show some (joinPath taskId runId name)
              = some (joinPath existing.taskId existing.runId existing.name)
            rw [hks.1, hks.2.1, hks.2.2]
        · exact absurd ((hst.trans h).symm.trans hs3) (by decide)
        · exact absurd ((hst.trans h).symm.trans hs3) (by decide)
        · exact absurd ((hst.trans h).symm.trans hs3) (by decide)
      · rw [if_neg hkb] at hgb
        subst hgb
        exact hinv b hb

def inputS3New : CreateInput :=
  { storageType := "s3", contentType := some "text/plain", expires := 2500000 }

/-- Closed witness for C6: variant construction at a concrete public-named
S3 request selects the public bucket and the joined key. -/
theorem createArtifact_s3_bucket_inv_witness :
    mkDetails ctx0 "t1" 0 "public/log.txt" inputS3New
      = .ok { bucket := some (if strStartsWith "public/log.txt" "public/"
                              then ctx0.publicBucket.bucket
                              else ctx0.privateBucket.bucket),
              pfx := some (joinPath "t1" 0 "public/log.txt") } :=
  (createArtifact_s3_bucket_inv ctx0 1000000 [] (some task0) true "t1" 0
      "public/log.txt" inputS3New (by simp)).1 rfl

/-! ## Claim C4 — region-aware URL choice for public S3 artifacts -/

/-- Claim C4: for a public-bucket S3 artifact the redirect URL follows the
three-way rule — unknown region, or a skip-cache header lowering to `true`
or `1`, yields the un-signed cloud-front GET URL; a known region equal to
the configured artifact region yields the direct same-region GET URL; any
other known region yields the cloud-mirror URL built from the host and the
URL-encoded canonical (same-region) artifact URL. -/
theorem replyWithArtifact_public_s3 (ctx : Context) (now : Int) (store : Store)
    (taskId : String) (runId : Nat) (name : String) (req : GetRequest) (a : Artifact)
    (p : String)
    (hload : Store.load store taskId runId name = some a)
    (hst : a.storageType = "s3")
    (hb : a.details.bucket = some ctx.publicBucket.bucket)
    (hp : a.details.pfx = some p) :
    (req.region.getD "" = "" →
      replyWithArtifact ctx now store taskId runId name req
        = ([], .redirect 303 (ctx.publicBucket.createGetUrl p false)))
    ∧ (req.region.getD "" ≠ "" →
        (jsToLower (req.skipCache.getD "") = "true"
          ∨ jsToLower (req.skipCache.getD "") = "1") →
      replyWithArtifact ctx now store taskId runId name req
        = ([], .redirect 303 (ctx.publicBucket.createGetUrl p false)))
    ∧ (req.region.getD "" ≠ "" →
        ¬(jsToLower (req.skipCache.getD "") = "true"
          ∨ jsToLower (req.skipCache.getD "") = "1") →
        ctx.artifactRegion = req.region.getD "" →
      replyWithArtifact ctx now store taskId runId name req
        = ([], .redirect 303 (ctx.publicBucket.createGetUrl p true)))
    ∧ (req.region.getD "" ≠ "" →
        ¬(jsToLower (req.skipCache.getD "") = "true"
          ∨ jsToLower (req.skipCache.getD "") = "1") →
        ctx.artifactRegion ≠ req.region.getD "" →
      replyWithArtifact ctx now store taskId runId name req
        = ([], .redirect 303 (urlFormat ctx.cloudMirrorHost
            ("v1/redirect/s3/" ++ req.region.getD "" ++ "/"
              ++ encodeURIComponent (ctx.publicBucket.createGetUrl p true))))) := by
  refine ⟨?_, ?_, ?_, ?_⟩
  · intro h1
    simp [replyWithArtifact, hload, hst, hb, hp, jsStr, h1]
  · intro h1 h2
    simp [replyWithArtifact, hload, hst, hb, hp, jsStr, h1, h2]
  · intro h1 h2 h3
    simp [replyWithArtifact, hload, hst, hb, hp, jsStr, h1, h2, h3]
  · intro h1 h2 h3
    simp [replyWithArtifact, hload, hst, hb, hp, jsStr, h1, h2, h3]

def reqOtherRegion : GetRequest := { region := some "eu-central-1" }

/-- Closed witness for C4: a request from a known region different from the
artifact region is sent to the cloud-mirror redirect URL. -/
theorem replyWithArtifact_public_s3_witness :
    replyWithArtifact ctx0 0 [storedS3] "t1" 0 "public/log.txt" reqOtherRegion
      = ([], .redirect 303 (urlFormat ctx0.cloudMirrorHost
          ("v1/redirect/s3/" ++ reqOtherRegion.region.getD "" ++ "/"
            ++ encodeURIComponent
              (ctx0.publicBucket.createGetUrl "t1/0/public/log.txt" true)))) :=
  (replyWithArtifact_public_s3 ctx0 0 [storedS3] "t1" 0 "public/log.txt" reqOtherRegion
      storedS3 "t1/0/public/log.txt" rfl rfl rfl rfl).2.2.2
    (by decide) (by decide) (by decide)

/-! ## Claim C5 — error artifacts always answer 403 with the stored body -/

/-- Claim C5: a get request resolving to a stored artifact of storage type
`error` answers HTTP 403 with exactly the stored `{reason, message}` pair
and never a 303 redirect, both on the explicit-run path and on the
latest-run path. -/
theorem replyWithArtifact_error_403 (ctx : Context) (now : Int) (store : Store)
    (taskId : String) (runId : Nat) (name : String) (req : GetRequest) (a : Artifact)
    (rsn msg : String)
    (hload : Store.load store taskId runId name = some a)
    (hst : a.storageType = "error")
    (hr : a.details.reason = some rsn) (hm : a.details.message = some msg) :
    replyWithArtifact ctx now store taskId runId name req
      = ([], .errorResponse 403 rsn msg)
    ∧ getArtifact ctx now store true taskId runId name req
      = ([], .errorResponse 403 rsn msg)
    ∧ (∀ taskOpt task, taskOpt = some task → task.runs ≠ [] →
        task.runs.length - 1 = runId →
      getLatestArtifact ctx now store true taskId taskOpt name req
        = ([], .errorResponse 403 rsn msg)) := by
  have hcore : replyWithArtifact ctx now store taskId runId name req
      = ([], .errorResponse 403 rsn msg) := by
    simp [replyWithArtifact, hload, hst, hr, hm, jsStr]
  refine ⟨hcore, ?_, ?_⟩
  · simp [getArtifact, hcore]
  · intro taskOpt task h2 hne hlen
    subst h2
    have hl0 : task.runs.length ≠ 0 := by
      simpa [List.length_eq_zero] using hne
    simp [getLatestArtifact, hl0, hlen, hcore]

def storedErrPub : Artifact :=
  { taskId := "t1", runId := 0, name := "public/out.txt", storageType := "error",
    contentType := "application/json",
    details := { message := some "file was a directory", reason := some "invalid-artifact" },
    expires := 2000000 }

/-- Closed witness for C5 at a concrete stored error artifact. -/
theorem replyWithArtifact_error_403_witness :
    replyWithArtifact ctx0 0 [storedErrPub] "t1" 0 "public/out.txt" {}
      = ([], .errorResponse 403 "invalid-artifact" "file was a directory") :=
  (replyWithArtifact_error_403 ctx0 0 [storedErrPub] "t1" 0 "public/out.txt" {}
      storedErrPub "invalid-artifact" "file was a directory" rfl rfl rfl rfl).1

/-! ## Claim C8 — latest-run resolution -/

/-- Claim C8: the implicit latest run resolves to `runs.length − 1` on both
`getLatestArtifact` and `listLatestArtifacts`; a task with no runs answers
`ResourceNotFound`, and so does a missing task. -/
theorem latest_run_resolution (ctx : Context) (now : Int) (store : Store)
    (taskId : String) (name : String) (req : GetRequest) (taskOpt : Option QTask)
    (limit : Nat) :
    (taskOpt = none →
      getLatestArtifact ctx now store true taskId taskOpt name req
        = ([], .notFound "Task not found")
      ∧ listLatestArtifacts store taskId taskOpt limit
        = .notFound ("No task with taskId: " ++ taskId ++ " found"))
    ∧ (∀ task, taskOpt = some task → task.runs = [] →
      getLatestArtifact ctx now store true taskId taskOpt name req
        = ([], .notFound "Task does not have any runs")
      ∧ listLatestArtifacts store taskId taskOpt limit
        = .notFound ("Task with taskId: " ++ taskId ++ " does not have any runs"))
    ∧ (∀ task, taskOpt = some task → task.runs ≠ [] →
      getLatestArtifact ctx now store true taskId taskOpt name req
        = replyWithArtifact ctx now store taskId (task.runs.length - 1) name req
      ∧ listLatestArtifacts store taskId taskOpt limit
        = .page ((Store.query store taskId (task.runs.length - 1)).take limit)) := by
  refine ⟨?_, ?_, ?_⟩
  · intro h
    subst h
    exact ⟨by simp [getLatestArtifact], by simp [listLatestArtifacts]⟩
  · intro task h hruns
    subst h
    exact ⟨by simp [getLatestArtifact, hruns], by simp [listLatestArtifacts, hruns]⟩
  · intro task h hruns
    subst h
    have hl0 : task.runs.length ≠ 0 := by
      simpa [List.length_eq_zero] using hruns
    exact ⟨by simp [getLatestArtifact, hl0], by simp [listLatestArtifacts, hl0]⟩

/-- Closed witness for C8 on a one-run task: latest resolves to run 0. -/
theorem latest_run_resolution_witness :
    getLatestArtifact ctx0 0 [] true "t1" (some task0) "public/log.txt" {}
      = replyWithArtifact ctx0 0 [] "t1" (task0.runs.length - 1) "public/log.txt" {}
    ∧ listLatestArtifacts [] "t1" (some task0) 1000
      = .page ((Store.query [] "t1" (task0.runs.length - 1)).take 1000) :=
  (latest_run_resolution ctx0 0 [] "t1" "public/log.txt" {} (some task0) 1000).2.2
    task0 rfl (by decide)

/-! ## Claim C9 — unknown storage type on the get path -/

def bogusArtifact : Artifact :=
  { taskId := "t9", runId := 0, name := "weird", storageType := "ipfs",
    contentType := "text/plain", details := {}, expires := 1000 }

def reqPlain : GetRequest := {}

/-- Claim C9, evaluated at the failing input: a stored artifact with an
unrecognized storage type makes the handler throw a `ReferenceError` on the
undefined identifier `artifacts` (the source reads `artifacts.storageType`
where only `artifact` is bound), before anything reaches the monitor and
without producing an `InternalError` response. -/
theorem replyWithArtifact_unknown_storageType_crashes :
    replyWithArtifact ctx0 0 [bogusArtifact] "t9" 0 "weird" reqPlain
      = ([], .refError "artifacts") := by
  decide

/-! ## Claim C10 — the bucket selection of the S3 create reply is total -/

/-- Claim C10: in the `createArtifact` reply path for a stored S3 artifact,
when the stored `details.bucket` names one of the two configured buckets
the two-step selection always produces a bucket, so the branch that would
call `createPutUrl` on a null bucket is unreachable and the reply is a
success. -/
theorem createReply_bucket_total (ctx : Context) (now : Int) (a : Artifact) (b : String)
    (hst : a.storageType = "s3") (hb : a.details.bucket = some b)
    (h : b = ctx.publicBucket.bucket ∨ b = ctx.privateBucket.bucket) :
    (∃ bk, selectBucket ctx a.details.bucket = some bk)
    ∧ ∃ rep, createReply ctx now a = .success rep := by
  constructor
  · rw [hb]
    exact selectBucket_isSome ctx b h
  · apply createReply_ok
    refine Or.inl ⟨hst, ?_⟩
    rcases h with h | h
    · exact Or.inl (by rw [hb, h])
    · exact Or.inr (by rw [hb, h])

/-- Closed witness for C10 at the concrete stored public S3 artifact. -/
theorem createReply_bucket_total_witness :
    (∃ bk, selectBucket ctx0 storedS3.details.bucket = some bk)
    ∧ ∃ rep, createReply ctx0 5 storedS3 = .success rep :=
  createReply_bucket_total ctx0 5 storedS3 "public-bucket" rfl rfl (Or.inl rfl)
